import Mathlib

/-!
Verification of the webserv conformance test harness (Python sources under
`tester/` and `tests/scripts/`) against its natural-language specification.

The Python code is shallowly embedded: byte strings become `List Char`
(the scripts decode responses with `errors='ignore'` and all test inputs
are ASCII, so one `Char` per byte is faithful), socket behaviour becomes an
explicit `NetBehavior` value (the sequence of `recv` results, with `[]`
denoting EOF and end-of-list denoting a socket timeout), Python exceptions
become `Except`/`Option` results, and the mutable `TestResult` object
becomes a record threaded through the functions that mutate it.
-/

namespace Webserv

/-- Byte strings of the harness, one `Char` per byte. -/
abbrev Bytes := List Char

/-- Coerce a Lean string literal to the byte-list representation. -/
def str (s : String) : Bytes := s.data

/-- Python `s.startswith(p)` on byte strings. -/
def leadsWith : Bytes → Bytes → Bool
  | [], _ => true
  | _ :: _, [] => false
  | p :: ps, c :: cs => p = c && leadsWith ps cs

/-- Python `pat in s` (substring containment) on byte strings. -/
def hasSub (pat : Bytes) : Bytes → Bool
  | [] => pat.isEmpty
  | c :: cs => leadsWith pat (c :: cs) || hasSub pat cs

/-- Python `s.split(sep, 1)` when `sep` occurs in `s`: the text before the
first occurrence of `sep` and the text after it.  `none` when `sep` does
not occur (the scripts only split after an `in` check). -/
def splitFirst (sep : Bytes) : Bytes → Option (Bytes × Bytes)
  | [] => if sep.isEmpty then some ([], []) else none
  | c :: cs =>
    if leadsWith sep (c :: cs) then some ([], (c :: cs).drop sep.length)
    else match splitFirst sep cs with
      | some (a, b) => some (c :: a, b)
      | none => none

/-- Python `s.split('\n')[0]`: the prefix of `s` before the first `'\n'`
(the whole of `s` when there is none). -/
def firstLine (s : Bytes) : Bytes := s.takeWhile (fun c => c ≠ '\n')

/-- The characters Python's `str.strip()` and no-argument `str.split()`
treat as whitespace (ASCII fragment). -/
def isSpaceChar (c : Char) : Bool :=
  c = ' ' || c = '\t' || c = '\n' || c = '\r' || c = '\x0b' || c = '\x0c'

/-- Python `s.strip()` (ASCII whitespace). -/
def pyStrip (s : Bytes) : Bytes :=
  ((s.dropWhile isSpaceChar).reverse.dropWhile isSpaceChar).reverse

/-- Python no-argument `s.split()`: split on runs of whitespace, discarding
empty fields. -/
def pyTokens (s : Bytes) : List Bytes :=
  (s.splitOnP isSpaceChar).filter (fun w => w ≠ [])

/-- Python `s.isdigit()` on ASCII byte strings: nonempty and all decimal
digits. -/
def pyIsDigit (s : Bytes) : Bool := !s.isEmpty && s.all Char.isDigit

/-- Numeric value of a digit-and-underscore string, underscores ignored. -/
def digitVal (s : Bytes) : Nat :=
  s.foldl (fun a c => if c = '_' then a else a * 10 + (c.toNat - 48)) 0

/-- Body of a Python `int()` literal after the optional sign: a digit
followed by digits with single underscores allowed between digits. -/
def digitTail : Bytes → Bool
  | [] => true
  | c :: cs =>
    if c = '_' then
      match cs with
      | [] => false
      | c2 :: cs2 => c2.isDigit && digitTail cs2
    else c.isDigit && digitTail cs

/-- A valid unsigned Python `int()` literal body. -/
def pyIntBody (s : Bytes) : Bool :=
  match s with
  | c :: cs => c.isDigit && digitTail cs
  | [] => false

/-- Python `int(s)` for a decimal string: strips whitespace, accepts an
optional sign and digits (with underscores between digits), and raises
`ValueError` otherwise. -/
def pyInt (s : Bytes) : Except String Int :=
  match pyStrip s with
  | [] => .error "ValueError"
  | c :: rest =>
    if c = '+' then
      if pyIntBody rest then .ok (digitVal rest) else .error "ValueError"
    else if c = '-' then
      if pyIntBody rest then .ok (-(digitVal rest : Int)) else .error "ValueError"
    else if pyIntBody (c :: rest) then .ok (digitVal (c :: rest))
    else .error "ValueError"

/-! ### comprehensive_tester.py, lines 185–231: the response read loop and
response parsing of `ComprehensiveTester.send_request` -/

/-- The status-code byte strings of the early-stop heuristic
(comprehensive_tester.py line 199). -/
def stopCodes : List Bytes := [str "204", str "304", str "404", str "400"]

/-- The early-stop heuristic of `send_request` (lines 195–201): the
accumulated response contains a header terminator, starts with `HTTP/`, is
longer than 100 bytes, and its first line contains one of `stopCodes` as a
substring. -/
def heuristicStop (resp : Bytes) : Bool :=
  hasSub (str "\r\n\r\n") resp &&
  (leadsWith (str "HTTP/") resp && decide (resp.length > 100)) &&
  stopCodes.any (fun code => hasSub code (firstLine resp))

/-- The 1 MiB response ceiling of `send_request` (line 192). -/
def ceiling : Nat := 1024 * 1024

/-- The `recv` loop of `ComprehensiveTester.send_request` (lines 185–203).
`chunks` is the sequence of `sock.recv(8192)` results: an empty chunk is
EOF, and the end of the list stands for `socket.timeout`, both of which
`break` with the bytes read so far.  After appending a chunk the loop
breaks when the response exceeds `ceiling`, or when `heuristicStop`
holds. -/
def recvLoop : List Bytes → Bytes → Bytes
  | [], acc => acc
  | chunk :: rest, acc =>
    if chunk = [] then acc
    else if (acc ++ chunk).length > ceiling then acc ++ chunk
    else if heuristicStop (acc ++ chunk) then acc ++ chunk
    else recvLoop rest (acc ++ chunk)

/-- Header/body split of `send_request` (lines 210–216): split at the first
`\r\n\r\n`, else at the first `\n\n`, else the whole input is headers and
the body is empty. -/
def headersBody (s : Bytes) : Bytes × Bytes :=
  match splitFirst (str "\r\n\r\n") s with
  | some (h, b) => (h, b)
  | none =>
    match splitFirst (str "\n\n") s with
    | some (h, b) => (h, b)
    | none => (s, [])

/-- Status-code extraction of `send_request` (lines 218–224): if the
headers are nonempty, take the first line, strip it, split it on
whitespace, and convert the second field with `int` when there are at
least two fields and the second is all digits; otherwise the status is
`None`.  The `int` call is modelled by `pyInt` so that a `ValueError`
would surface as an `Except.error`. -/
def parse_status (headers : Bytes) : Except String (Option Nat) :=
  if headers = [] then .ok none
  else
    match pyTokens (pyStrip (firstLine headers)) with
    | _ :: p1 :: _ =>
      if pyIsDigit p1 then (pyInt p1).map (fun n => some n.toNat)
      else .ok none
    | _ => .ok none

/-- The `(status_code, headers, body)` triple returned by
`ComprehensiveTester.send_request`.  On an exception the code returns
`(None, None, message)`, hence the `Option` components. -/
structure SendResult where
  status : Option Nat
  headers : Option Bytes
  body : Bytes
deriving DecidableEq

/-- Parsing phase of `send_request` (lines 207–226) over the complete
framed bytes, as an `Except` so that an exception raised while parsing
would be visible. -/
def parseResponseE (resp : Bytes) : Except String SendResult :=
  let hb := headersBody resp
  (parse_status hb.1).map (fun st => ⟨st, some hb.1, hb.2⟩)

/-- The network behaviour observed by one `send_request` call: the
connection is refused, or connecting/sending raises some other exception
with message `msg` (e.g. `socket.timeout`, whose text is `timed out`), or
data flows and the `recv` loop observes `chunks`. -/
inductive NetBehavior where
  | refused
  | connectFail (msg : Bytes)
  | stream (chunks : List Bytes)

/-- `ComprehensiveTester.send_request` (lines 169–231).  A refused
connection is caught by the dedicated `except ConnectionRefusedError`
handler (line 228) and reported with a fixed diagnostic; any other
exception is caught by the blanket handler (line 230) and reported with
its own message; otherwise the read loop runs and the response is
parsed (an exception during parsing would also reach the blanket
handler). -/
def send_request (net : NetBehavior) : SendResult :=
  match net with
  | .refused => ⟨none, none, str "Connection refused - is the server running?"⟩
  | .connectFail msg => ⟨none, none, msg⟩
  | .stream chunks =>
    match parseResponseE (recvLoop chunks []) with
    | .ok r => r
    | .error e => ⟨none, none, e.data⟩

/-! ### comprehensive_tester.py, lines 32–63: the `TestResult` ledger -/

/-- One per-category entry of `TestResult.category_stats`
(`{'passed': …, 'failed': …, 'skipped': …}`). -/
structure CatStats where
  passed : Nat
  failed : Nat
  skipped : Nat
deriving DecidableEq

/-- One element of `TestResult.tests`: the tuple
`(test_name, status, category, expected, got, message)` where `status` is
one of the strings `"PASS"`, `"FAIL"`, `"SKIP"`. -/
structure TestEntry where
  name : String
  status : String
  category : String
  expected : Nat
  got : Nat
  message : String
deriving DecidableEq

/-- The mutable state of a `TestResult` object (comprehensive_tester.py
lines 32–39); the Python dict `category_stats` is modelled as an
association list with the dict's unique-key/insertion-order semantics
(`ensureCat` inserts a fresh key at most once, `bumpCat` updates the
entry holding the key). -/
structure TestResult where
  passed : Nat
  failed : Nat
  skipped : Nat
  tests : List TestEntry
  categoryStats : List (String × CatStats)
deriving DecidableEq

/-- A freshly constructed `TestResult` (its `__init__`). -/
def emptyResult : TestResult := ⟨0, 0, 0, [], []⟩

/-- Python `category not in self.category_stats`, negated. -/
def hasKey (m : List (String × CatStats)) (k : String) : Bool :=
  m.any (fun p => p.1 = k)

/-- `if category not in self.category_stats: self.category_stats[category]
= {'passed': 0, 'failed': 0, 'skipped': 0}` (lines 44–45 etc.). -/
def ensureCat (m : List (String × CatStats)) (k : String) :
    List (String × CatStats) :=
  if hasKey m k then m else m ++ [(k, ⟨0, 0, 0⟩)]

/-- `self.category_stats[category][field] += 1`: update the (unique) entry
holding key `k`. -/
def bumpCat (m : List (String × CatStats)) (k : String)
    (f : CatStats → CatStats) : List (String × CatStats) :=
  match m with
  | [] => []
  | (k', v) :: rest =>
    if k' = k then (k', f v) :: rest else (k', v) :: bumpCat rest k f

/-- `TestResult.add_pass` (lines 41–48; the progress print is I/O only). -/
def add_pass (r : TestResult) (name category : String) (expected got : Nat)
    (message : String) : TestResult :=
  { passed := r.passed + 1
    failed := r.failed
    skipped := r.skipped
    tests := r.tests ++ [⟨name, "PASS", category, expected, got, message⟩]
    categoryStats :=
      bumpCat (ensureCat r.categoryStats category) category
        (fun v => { v with passed := v.passed + 1 }) }

/-- `TestResult.add_fail` (lines 50–56; the failure print is I/O only). -/
def add_fail (r : TestResult) (name category : String) (expected got : Nat)
    (message : String) : TestResult :=
  { passed := r.passed
    failed := r.failed + 1
    skipped := r.skipped
    tests := r.tests ++ [⟨name, "FAIL", category, expected, got, message⟩]
    categoryStats :=
      bumpCat (ensureCat r.categoryStats category) category
        (fun v => { v with failed := v.failed + 1 }) }

/-- `TestResult.add_skip` (lines 58–63): records the entry with
`expected = got = 0` and the caller's reason as the message. -/
def add_skip (r : TestResult) (name category reason : String) : TestResult :=
  { passed := r.passed
    failed := r.failed
    skipped := r.skipped + 1
    tests := r.tests ++ [⟨name, "SKIP", category, 0, 0, reason⟩]
    categoryStats :=
      bumpCat (ensureCat r.categoryStats category) category
        (fun v => { v with skipped := v.skipped + 1 }) }

/-- `ComprehensiveTester.test_status` (lines 233–248): run `send_request`;
a `None` status is recorded as a failure with got `0` and the message
`No response: {body}`; otherwise pass iff the status equals the expected
one or lies in the allowed alternatives (an absent/empty alternatives
list is falsy in line 243, which coincides with empty-list membership). -/
def test_status (r : TestResult) (name category : String) (net : NetBehavior)
    (expected : Nat) (alts : List Nat) : TestResult × Bool :=
  let res := send_request net
  match res.status with
  | none =>
    (add_fail r name category expected 0
      ("No response: " ++ String.mk res.body), false)
  | some s =>
    if s = expected || alts.contains s then
      (add_pass r name category expected s "", true)
    else
      (add_fail r name category expected s "", false)

/-! ### rfc_compliance_tester.py, lines 22–111 and 379–419 -/

/-- The mutable counters of `RFCComplianceTester` (lines 26–28). -/
structure RfcState where
  passed : Nat
  failed : Nat
  warnings : Nat
deriving DecidableEq

/-- The `recv` loop of `RFCComplianceTester.send_raw` (lines 38–50):
ceiling 100000 bytes, early stop once a header terminator is present and
more than 50 bytes were read. -/
def rfcRecvLoop : List Bytes → Bytes → Bytes
  | [], acc => acc
  | chunk :: rest, acc =>
    if chunk = [] then acc
    else if (acc ++ chunk).length > 100000 then acc ++ chunk
    else if hasSub (str "\r\n\r\n") (acc ++ chunk) &&
        decide ((acc ++ chunk).length > 50) then acc ++ chunk
    else rfcRecvLoop rest (acc ++ chunk)

/-- Status extraction of `send_raw` (lines 54–64): on a nonempty response,
split the first line on whitespace and convert the second field when it is
all digits; every other case (including any exception, swallowed by the
inner `try`) yields `None` with the raw response. -/
def rfc_extract (resp : Bytes) : Option Nat × Bytes :=
  if resp = [] then (none, resp)
  else
    match pyTokens (firstLine resp) with
    | _ :: p1 :: _ =>
      if pyIsDigit p1 then (some (digitVal p1), resp) else (none, resp)
    | _ => (none, resp)

/-- `RFCComplianceTester.send_raw` (lines 30–67).  All exceptions,
including a refused connection, fall into the single blanket handler and
come back as `(None, str(e).encode())`; `[Errno 111] Connection refused`
is CPython's text for `ConnectionRefusedError`. -/
def send_raw (net : NetBehavior) : Option Nat × Bytes :=
  match net with
  | .refused => (none, str "[Errno 111] Connection refused")
  | .connectFail msg => (none, msg)
  | .stream chunks => rfc_extract (rfcRecvLoop chunks [])

/-- `RFCComplianceTester.test` (lines 69–83), returning the updated
counters, the printed line, and the boolean result.  A `None` status never
equals `expected_status` and is not in `alternatives`, so it reaches the
failure branch and prints `got None`. -/
def rfc_test (st : RfcState) (name : String) (net : NetBehavior)
    (expected : Nat) (altsOpt : Option (List Nat)) :
    RfcState × String × Bool :=
  let status := (send_raw net).1
  let alts := altsOpt.getD []
  match status with
  | some s =>
    if s = expected || alts.contains s then
      ({ st with passed := st.passed + 1 },
       "\x1b[92m✓\x1b[0m " ++ name ++ " (got " ++ toString s ++ ")", true)
    else
      ({ st with failed := st.failed + 1 },
       "\x1b[91m✗\x1b[0m " ++ name ++ " - Expected " ++ toString expected ++
         ", got " ++ toString s, false)
  | none =>
    ({ st with failed := st.failed + 1 },
     "\x1b[91m✗\x1b[0m " ++ name ++ " - Expected " ++ toString expected ++
       ", got None", false)

/-! ### tests/scripts/test_webserv.py, lines 132–143 -/

/-- Python `headers.split('\r\n')[0]`: the prefix before the first
`\r\n`. -/
def first_crlf_line (s : Bytes) : Bytes :=
  match splitFirst (str "\r\n") s with
  | some (a, _) => a
  | none => s

/-- `HTTPTester.get_status_code` (test_webserv.py lines 132–143): split the
first `\r\n`-terminated line on single spaces (`split(' ')`, which keeps
empty fields and does not treat tabs as separators) and convert the second
field with `int`, the `try`/`except` turning any `ValueError` into the
fallback return value `0`. -/
def get_status_code (headers : Bytes) : Int :=
  if headers = [] then 0
  else
    match (first_crlf_line headers).splitOn ' ' with
    | _ :: p1 :: _ =>
      match pyInt p1 with
      | .ok n => n
      | .error _ => 0
    | _ => 0

/-! ### Python attribute and keyword-argument semantics for the call
sites of `add_skip` and `RFCComplianceTester.test` -/

/-- The instance attributes bound by `ComprehensiveTester.__init__`
(comprehensive_tester.py lines 162–167): `host`, `port`, `result`,
`timeout`, `verbose`.  No other attribute is ever assigned on the
instance. -/
def comprehensiveTesterAttrs : List String :=
  ["host", "port", "result", "timeout", "verbose"]

/-- Python attribute lookup on an instance: `AttributeError` when the
name is not among the instance's attributes. -/
def pyGetAttr (attrs : List String) (name : String) : Except String Unit :=
  if attrs.contains name then .ok ()
  else .error ("AttributeError: 'ComprehensiveTester' object has no attribute '"
    ++ name ++ "'")

/-- The parameters accepted by `RFCComplianceTester.test`
(rfc_compliance_tester.py line 69): `name`, `data`, `expected_status`,
`alternatives`. -/
def rfcTestParams : List String := ["name", "data", "expected_status", "alternatives"]

/-- Python keyword-argument binding: a keyword that names no parameter
raises `TypeError` before the callee body runs. -/
def pyKwArgCheck (fname : String) (params : List String) (kwargs : List String) :
    Option String :=
  match kwargs.find? (fun k => !params.contains k) with
  | some k =>
    some ("TypeError: " ++ fname ++ "() got an unexpected keyword argument '"
      ++ k ++ "'")
  | none => none

/-- One `self.results.add_skip(name, category, reason)` statement as it
executes on a `ComprehensiveTester` instance: the attribute lookup of
`results` happens first, and only on success is `add_skip` applied.  The
second component is the exception propagating out, if any. -/
def results_add_skip (r : TestResult) (name category reason : String) :
    TestResult × Option String :=
  match pyGetAttr comprehensiveTesterAttrs "results" with
  | .ok _ => (add_skip r name category reason, none)
  | .error e => (r, some e)

/-- The Content-Length-mismatch skip loop of `test_4xx_client_errors`
(comprehensive_tester.py lines 462–470): ten iterations of
`self.results.add_skip(f"Content-Length mismatch #{i+1}", category,
"Causes connection issues, not required by subject")`, stopping at the
first uncaught exception. -/
def cl_mismatch_skip_loop : List Nat → TestResult → TestResult × Option String
  | [], r => (r, none)
  | i :: rest, r =>
    match results_add_skip r ("Content-Length mismatch #" ++ toString (i + 1))
        "4XX Client Errors" "Causes connection issues, not required by subject" with
    | (r2, none) => cl_mismatch_skip_loop rest r2
    | (r2, some e) => (r2, some e)

/-- The whole lines-462–470 block (`for i in range(10)`). -/
def cl_mismatch_block (r : TestResult) : TestResult × Option String :=
  cl_mismatch_skip_loop (List.range 10) r

/-- The 408 Request-Timeout skip loop of `test_4xx_client_errors`
(comprehensive_tester.py lines 526–531): five iterations of
`self.results.add_skip(f"Incomplete request #{i}", category,
"Server waits for data, doesn't timeout in 1s")`. -/
def request_timeout_skip_loop : List Nat → TestResult → TestResult × Option String
  | [], r => (r, none)
  | i :: rest, r =>
    match results_add_skip r ("Incomplete request #" ++ toString i)
        "4XX Client Errors" "Server waits for data, doesn't timeout in 1s" with
    | (r2, none) => request_timeout_skip_loop rest r2
    | (r2, some e) => (r2, some e)

/-- The whole lines-526–531 block (`for i in range(5)`). -/
def request_timeout_block (r : TestResult) : TestResult × Option String :=
  request_timeout_skip_loop (List.range 5) r

/-! ### comprehensive_tester.py, lines 965–1029: the run loop -/

/-- A test-suite method mutates the shared `TestResult` and may raise. -/
def SuiteFn : Type := TestResult → TestResult × Option String

/-- The `try` block of `run_all_tests` (lines 983–1023): the suites run in
order on the shared ledger; the single blanket `except Exception` around
all of them means the first exception ends the block, leaving the ledger
as the raising suite left it and never running the remaining suites. -/
def run_suites (r : TestResult) : List SuiteFn → TestResult
  | [] => r
  | f :: rest =>
    match f r with
    | (r2, none) => run_suites r2 rest
    | (r2, some _) => r2

/-- `ComprehensiveTester.run_all_tests` (lines 965–1029): first the
connectivity check, `send_request("GET / HTTP/1.1…")` — if its status is
`None` the function returns exit code 1 with the ledger still empty
(lines 974–979); otherwise the suites run inside the `try` block and the
exit code is 0 iff no failure was recorded. -/
def run_all_tests (net : NetBehavior) (suites : List SuiteFn) :
    Nat × TestResult :=
  match (send_request net).status with
  | none => (1, emptyResult)
  | some _ =>
    let r := run_suites emptyResult suites
    (if r.failed = 0 then 0 else 1, r)

/-! ### comprehensive_tester.py, lines 65–81: `TestResult.print_summary` -/

/-- Python true division on nonnegative integers: `ZeroDivisionError`
when the divisor is zero, else the rational quotient. -/
def pyDiv (a b : Nat) : Except String ℚ :=
  if b = 0 then .error "ZeroDivisionError: division by zero"
  else .ok ((a : ℚ) / (b : ℚ))

/-- The unguarded computation of `print_summary` (lines 65–75): the three
percentages `self.passed/total*100`, `self.failed/total*100`,
`self.skipped/total*100` with `total = passed + failed + skipped`.  The
success-rate block (lines 77–81) and the per-category rates (lines
89–97) are guarded by positivity checks in the source and cannot
divide by zero, so the summary raises exactly when these do. -/
def print_summary_calc (r : TestResult) : Except String (ℚ × ℚ × ℚ) := do
  let total := r.passed + r.failed + r.skipped
  let p ← pyDiv r.passed total
  let f ← pyDiv r.failed total
  let s ← pyDiv r.skipped total
  return (p * 100, f * 100, s * 100)

/-! ### Derived notions used by the statements -/

/-- One call to a `TestResult` mutator, for reasoning about arbitrary
finite call sequences. -/
inductive LedgerOp where
  | pass (name category : String) (expected got : Nat) (message : String)
  | fail (name category : String) (expected got : Nat) (message : String)
  | skip (name category reason : String)

/-- Apply one mutator call to the ledger. -/
def applyOp (r : TestResult) : LedgerOp → TestResult
  | .pass n c e g m => add_pass r n c e g m
  | .fail n c e g m => add_fail r n c e g m
  | .skip n c reason => add_skip r n c reason

/-- Sum of one `CatStats` field over all entries of `category_stats`. -/
def catSum (f : CatStats → Nat) (m : List (String × CatStats)) : Nat :=
  (m.map (fun p => f p.2)).sum

/-- Dict indexing `category_stats[k]`, with the all-zero entry for a
missing key (every code path inserts the zero entry before reading). -/
def getCat : List (String × CatStats) → String → CatStats
  | [], _ => ⟨0, 0, 0⟩
  | (k', v) :: rest, k => if k' = k then v else getCat rest k

/-- Total number of bytes a server makes available on a connection: the
chunk lengths up to the end of the stream (an empty chunk is EOF and
carries no bytes). -/
def server_bytes (chunks : List Bytes) : Nat :=
  (chunks.map List.length).sum

/-- A complete 404 response longer than 100 bytes, used as a concrete
first chunk. -/
def resp404 : Bytes :=
  str ("HTTP/1.1 404 Not Found\r\nContent-Type: text/html\r\n\r\n" ++
    "<html><body>The requested resource was not found</body></html>")

/-- A full-size `recv(8192)` chunk. -/
def bigChunk : Bytes := List.replicate 8192 'a'

/-- A server that answers `resp404` and then keeps streaming far past the
1 MiB ceiling (129 further full chunks are available and unread). -/
def c5_streamA : List Bytes := resp404 :: List.replicate 129 bigChunk

/-- A server that answers exactly `resp404` and closes the connection. -/
def c5_streamB : List Bytes := [resp404, []]

/-- The byte stream of the spec's concrete framing example, followed by
EOF. -/
def c3_stream : List Bytes :=
  [str "HTTP/1.1 200 OK\r\nContent-Length: 5\r\n\r\nHELLOEXTRA", []]

/-- A response carrying two differing `Content-Length` headers (4 and 10)
and an 8-byte body, followed by EOF. -/
def c4_stream : List Bytes :=
  [str "HTTP/1.1 200 OK\r\nContent-Length: 4\r\nContent-Length: 10\r\n\r\ntestmore", []]

/-- The claim's reading of "the second whitespace-separated token of the
first line is a decimal number", stated with Python `str.split()`
whitespace tokenization. -/
def secondTokenNumeric (line : Bytes) : Bool :=
  match pyTokens line with
  | _ :: p1 :: _ => pyIsDigit p1
  | _ => false

/-! ## Claim theorems -/

/-- C3 counterexample: on the spec's concrete byte stream
`HTTP/1.1 200 OK\r\nContent-Length: 5\r\n\r\nHELLOEXTRA` the reader does
not stop after 5 body bytes: the read loop consumes the entire stream,
`EXTRA` included, and the framed body is `HELLOEXTRA`, not `HELLO`. -/
theorem C3_counterexample :
    (send_request (.stream c3_stream)).body = str "HELLOEXTRA" ∧
    str "HELLOEXTRA" ≠ str "HELLO" ∧
    recvLoop c3_stream [] =
      str "HTTP/1.1 200 OK\r\nContent-Length: 5\r\n\r\nHELLOEXTRA" := by
  decide

/-- C3 amended: `send_request` ignores `Content-Length` entirely; it
accumulates bytes until EOF, timeout, the 1 MiB ceiling, or the
204/304/400/404 heuristic, and the body is everything after the first
header terminator.  On the spec's stream this yields status 200, the
header block up to the terminator, and body `HELLOEXTRA` with `EXTRA`
consumed. -/
theorem C3_amended :
    send_request (.stream c3_stream) =
      ⟨some 200, some (str "HTTP/1.1 200 OK\r\nContent-Length: 5"),
        str "HELLOEXTRA"⟩ := by
  decide

/-- C4 counterexample: a response carrying two differing `Content-Length`
headers (4 and 10) is not surfaced as malformed; `send_request` parses it
like any other response (status 200, full 8-byte body), and a test
expecting 200 records a plain Pass — the conflict is silently ignored,
with no `Malformed` outcome and no Fail. -/
theorem C4_counterexample :
    (test_status emptyResult "dup-content-length" "framing"
        (.stream c4_stream) 200 []).1.passed = 1 ∧
    (test_status emptyResult "dup-content-length" "framing"
        (.stream c4_stream) 200 []).1.failed = 0 ∧
    (send_request (.stream c4_stream)).status = some 200 := by
  decide

/-- C4 amended: the reader performs no length-based framing at all, so on
a response with conflicting `Content-Length` headers it neither rejects
nor picks either value: both headers are preserved verbatim in the header
block, the status parses normally, and the body is all bytes after the
terminator (here 8 bytes, matching neither declared length). -/
theorem C4_amended :
    send_request (.stream c4_stream) =
      ⟨some 200,
        some (str "HTTP/1.1 200 OK\r\nContent-Length: 4\r\nContent-Length: 10"),
        str "testmore"⟩ ∧
    hasSub (str "Content-Length: 4")
      (str "HTTP/1.1 200 OK\r\nContent-Length: 4\r\nContent-Length: 10") = true ∧
    hasSub (str "Content-Length: 10")
      (str "HTTP/1.1 200 OK\r\nContent-Length: 4\r\nContent-Length: 10") = true ∧
    (str "testmore").length ≠ 4 ∧ (str "testmore").length ≠ 10 := by
  decide

/-- Helper: the comprehensive read loop never holds more than one chunk
beyond the 1 MiB ceiling. -/
theorem recvLoop_length_le (chunks : List Bytes) (acc : Bytes)
    (hc : ∀ c ∈ chunks, c.length ≤ 8192) (ha : acc.length ≤ ceiling) :
    (recvLoop chunks acc).length ≤ ceiling + 8192 := by
  induction chunks generalizing acc with
  | nil => simp only [recvLoop]; omega
  | cons c rest ih =>
    have hclen : c.length ≤ 8192 := hc c (by simp)
    have hrest : ∀ x ∈ rest, x.length ≤ 8192 := fun x hx => hc x (by simp [hx])
    simp only [recvLoop]
    split
    · omega
    · split
      · simp only [List.length_append]; omega
      · split
        · rename_i hover _
          simp only [List.length_append] at hover ⊢
          omega
        · rename_i hover _
          refine ih _ hrest ?_
          simp only [List.length_append] at hover ⊢
          omega

/-- Helper: the RFC-tester read loop never holds more than one chunk
beyond its 100000-byte ceiling. -/
theorem rfcRecvLoop_length_le (chunks : List Bytes) (acc : Bytes)
    (hc : ∀ c ∈ chunks, c.length ≤ 8192) (ha : acc.length ≤ 100000) :
    (rfcRecvLoop chunks acc).length ≤ 100000 + 8192 := by
  induction chunks generalizing acc with
  | nil => simp only [rfcRecvLoop]; omega
  | cons c rest ih =>
    have hclen : c.length ≤ 8192 := hc c (by simp)
    have hrest : ∀ x ∈ rest, x.length ≤ 8192 := fun x hx => hc x (by simp [hx])
    simp only [rfcRecvLoop]
    split
    · omega
    · split
      · simp only [List.length_append]; omega
      · split
        · rename_i hover _
          simp only [List.length_append] at hover ⊢
          omega
        · rename_i hover _
          refine ih _ hrest ?_
          simp only [List.length_append] at hover ⊢
          omega

/-- C5 amended: for every server stream delivered in `recv` chunks of at
most 8192 bytes, both read loops terminate with a bounded number of bytes
consumed — at most one chunk beyond the configured ceiling (1 MiB in
`ComprehensiveTester.send_request`, 100000 bytes in
`RFCComplianceTester.send_raw`) — but the result is never marked
truncated: the code returns only the raw bytes read, with no flag. -/
theorem C5_amended (chunks : List Bytes)
    (h : ∀ c ∈ chunks, c.length ≤ 8192) :
    (recvLoop chunks []).length ≤ 1024 * 1024 + 8192 ∧
    (rfcRecvLoop chunks []).length ≤ 100000 + 8192 :=
  ⟨recvLoop_length_le chunks [] h (by simp [ceiling]),
   rfcRecvLoop_length_le chunks [] h (by simp)⟩

/-- C5 witness: the bound applied to a concrete two-chunk stream. -/
theorem C5_amended_witness :
    (∀ c ∈ [str "HTTP/1.1 200 OK", str "\r\n\r\n"], c.length ≤ 8192) ∧
    (recvLoop [str "HTTP/1.1 200 OK", str "\r\n\r\n"] []).length ≤
      1024 * 1024 + 8192 ∧
    (rfcRecvLoop [str "HTTP/1.1 200 OK", str "\r\n\r\n"] []).length ≤
      100000 + 8192 :=
  ⟨by decide, C5_amended [str "HTTP/1.1 200 OK", str "\r\n\r\n"] (by decide)⟩

/-- C5 counterexample: no `truncated = true` marking exists.  A server
whose stream holds over 1 MiB (`c5_streamA`: a 404 response followed by
129 further full chunks the reader never drains) and a server that sends
the same 113-byte response and closes (`c5_streamB`) produce *identical*
`send_request` results, so no component of the result can record that the
first stream was cut short of the ceiling-exceeding remainder. -/
theorem C5_counterexample :
    recvLoop c5_streamA [] = recvLoop c5_streamB [] ∧
    server_bytes c5_streamA > 1024 * 1024 ∧
    server_bytes c5_streamB ≤ 1024 * 1024 ∧
    send_request (.stream c5_streamA) = send_request (.stream c5_streamB) := by
  have h1 : recvLoop c5_streamA [] = recvLoop c5_streamB [] := by decide
  have hlen : resp404.length = 113 := by decide
  refine ⟨h1, ?_, ?_, ?_⟩
  · simp only [server_bytes, c5_streamA, bigChunk, List.map_cons,
      List.map_replicate, List.length_replicate, List.sum_cons,
      List.sum_replicate, smul_eq_mul, hlen]
    norm_num
  · simp only [server_bytes, c5_streamB, List.map_cons, List.map_nil,
      List.sum_cons, List.sum_nil, List.length_nil, hlen]
    norm_num
  · simp only [send_request]
    rw [h1]

/-- Helper: inserting-then-bumping a category updates exactly that
category's entry, as Python dict indexing does. -/
theorem getCat_ensure_bump (m : List (String × CatStats)) (k : String)
    (g : CatStats → CatStats) :
    getCat (bumpCat (ensureCat m k) k g) k = g (getCat m k) := by
  induction m with
  | nil => simp [ensureCat, hasKey, bumpCat, getCat]
  | cons x rest ih =>
    obtain ⟨k', v⟩ := x
    by_cases hk : k' = k
    · subst hk
      simp [ensureCat, hasKey, bumpCat, getCat]
    · have hstep : ensureCat ((k', v) :: rest) k = (k', v) :: ensureCat rest k := by
        simp only [ensureCat, hasKey, List.any_cons]
        by_cases hr : hasKey rest k
        · simp [hasKey] at hr
          simp [hk, hr]
        · simp [hasKey] at hr
          simp [hk, hr]
      rw [hstep]
      simp only [bumpCat, getCat, if_neg hk]
      exact ih

/-- C1: the run does not record one outcome per submitted case, through a
slip the spec's invariant shows to be unintended: every skip call site
reads `self.results`, an attribute `__init__` never defines (it defines
`self.result`), so the Content-Length-mismatch block of
`test_4xx_client_errors` raises `AttributeError` with the ledger
untouched; the exception propagates to `run_all_tests`' blanket handler,
so every suite after the raising one is silently dropped.  Likewise
`rfc_compliance_tester.py` line 111 passes `timeout=2.0` to `test()`,
which has no such parameter, a `TypeError`.  Genuine transport failures
are, as claimed, caught per case and recorded as a Fail. -/
theorem C1_skip_call_aborts_run (r : TestResult) (rest : List SuiteFn) :
    cl_mismatch_block r =
      (r, some "AttributeError: 'ComprehensiveTester' object has no attribute 'results'") ∧
    run_suites r ((fun s => cl_mismatch_block s) :: rest) = r ∧
    pyKwArgCheck "test" rfcTestParams ["timeout"] =
      some "TypeError: test() got an unexpected keyword argument 'timeout'" ∧
    (∀ name category expected alts,
      (test_status r name category .refused expected alts).1 =
        add_fail r name category expected 0
          "No response: Connection refused - is the server running?") := by
  refine ⟨rfl, rfl, rfl, fun name category expected alts => rfl⟩

/-- C6: the `TestResult.add_skip` method itself behaves exactly as the
claim says — one `SKIP` entry carrying the reason, the global and
per-category skipped tallies each up by one, no transport involved — but
in this program every caller reaches it through the undefined attribute
`self.results`, so e.g. the 408 skip block of `test_4xx_client_errors`
(lines 526–531) raises `AttributeError` and records nothing. -/
theorem C6_add_skip_behaviour (r : TestResult) (name category reason : String) :
    (add_skip r name category reason).skipped = r.skipped + 1 ∧
    (add_skip r name category reason).passed = r.passed ∧
    (add_skip r name category reason).failed = r.failed ∧
    (add_skip r name category reason).tests =
      r.tests ++ [⟨name, "SKIP", category, 0, 0, reason⟩] ∧
    (getCat (add_skip r name category reason).categoryStats category).skipped =
      (getCat r.categoryStats category).skipped + 1 ∧
    request_timeout_block r =
      (r, some "AttributeError: 'ComprehensiveTester' object has no attribute 'results'") := by
  refine ⟨rfl, rfl, rfl, rfl, ?_, rfl⟩
  show (getCat (bumpCat (ensureCat r.categoryStats category) category
      (fun v => { v with skipped := v.skipped + 1 })) category).skipped = _
  rw [getCat_ensure_bump]

/-- C2: expectation matching.  In `ComprehensiveTester.test_status`, a
parsed status passes iff it equals the expected status or lies in the
allowed alternatives, and otherwise one Fail entry carrying both the
expected and the actual value is recorded; an absent status (no status
line parsed, refused connection, any transport error) always records one
Fail with an explanatory message and never touches the skipped tally.
`RFCComplianceTester.test` evaluates the same condition on its counters,
printing both values on failure and `got None` for an absent status. -/
theorem C2_expectation_matching (r : TestResult) (name category : String)
    (net : NetBehavior) (e : Nat) (alts : List Nat) (st : RfcState)
    (altsOpt : Option (List Nat)) :
    ((test_status r name category net e alts).2 = true ↔
      ∃ s, (send_request net).status = some s ∧ (s = e ∨ s ∈ alts)) ∧
    (∀ s, (send_request net).status = some s →
      ((s = e ∨ s ∈ alts) →
        (test_status r name category net e alts).1 =
          add_pass r name category e s "") ∧
      (¬(s = e ∨ s ∈ alts) →
        (test_status r name category net e alts).1 =
          add_fail r name category e s "")) ∧
    ((send_request net).status = none →
      (test_status r name category net e alts).1 =
        add_fail r name category e 0
          ("No response: " ++ String.mk (send_request net).body) ∧
      (test_status r name category net e alts).1.skipped = r.skipped ∧
      (test_status r name category net e alts).1.failed = r.failed + 1) ∧
    (∀ s, (send_raw net).1 = some s →
      ((s = e ∨ s ∈ altsOpt.getD []) →
        rfc_test st name net e altsOpt =
          ({ st with passed := st.passed + 1 },
            "\x1b[92m✓\x1b[0m " ++ name ++ " (got " ++ toString s ++ ")",
            true)) ∧
      (¬(s = e ∨ s ∈ altsOpt.getD []) →
        rfc_test st name net e altsOpt =
          ({ st with failed := st.failed + 1 },
            "\x1b[91m✗\x1b[0m " ++ name ++ " - Expected " ++ toString e ++
              ", got " ++ toString s, false))) ∧
    ((send_raw net).1 = none →
      rfc_test st name net e altsOpt =
        ({ st with failed := st.failed + 1 },
          "\x1b[91m✗\x1b[0m " ++ name ++ " - Expected " ++ toString e ++
            ", got None", false)) := by
  refine ⟨?_, ?_, ?_, ?_, ?_⟩
  · unfold test_status
    cases h : (send_request net).status with
    | none => simp [h]
    | some s =>
      by_cases hm : s = e ∨ s ∈ alts
      · simp [h, hm]
      · simp [h, hm]
  · intro s h
    unfold test_status
    constructor
    · intro hm
      simp [h, hm]
    · intro hm
      simp [h, hm]
  · intro h
    unfold test_status
    simp [h]
    exact ⟨rfl, rfl⟩
  · intro s h
    unfold rfc_test
    constructor
    · intro hm
      simp [h, hm]
    · intro hm
      simp [h, hm]
  · intro h
    unfold rfc_test
    simp [h]

/-- C2 witness: a concrete 200 response against expectation 200 records
one Pass, and a refused connection against any expectation records one
Fail. -/
theorem C2_witness :
    (test_status emptyResult "basic" "2XX"
        (.stream [str "HTTP/1.1 200 OK\r\n\r\nok", []]) 200 []).1 =
      add_pass emptyResult "basic" "2XX" 200 200 "" ∧
    (test_status emptyResult "down" "2XX" .refused 200 []).1.failed = 1 := by
  constructor
  · exact ((C2_expectation_matching emptyResult "basic" "2XX"
      (.stream [str "HTTP/1.1 200 OK\r\n\r\nok", []]) 200 [] ⟨0, 0, 0⟩
      none).2.1 200 (by decide)).1 (Or.inl rfl)
  · exact ((C2_expectation_matching emptyResult "down" "2XX" .refused 200 []
      ⟨0, 0, 0⟩ none).2.2.1 (by decide)).2.2

/-- C7: connection-refused handling.  `send_request` has a dedicated
`except ConnectionRefusedError` handler whose result differs from the
result of any timeout (a `socket.timeout` reaches the blanket handler
with the text `timed out`); during a test case a refused connection
becomes a single recorded Fail with the diagnostic message and the run
continues; and `run_all_tests` performs the connectivity probe before any
case runs — if its status is absent the run returns exit code 1 with the
ledger still empty, while a successful probe lets every suite run. -/
theorem C7_connection_refused (r : TestResult) (name category : String)
    (e : Nat) (alts : List Nat) (suites : List SuiteFn) (net : NetBehavior) :
    send_request .refused ≠ send_request (.connectFail (str "timed out")) ∧
    (send_request .refused).body =
      str "Connection refused - is the server running?" ∧
    (test_status r name category .refused e alts).1.failed = r.failed + 1 ∧
    (test_status r name category .refused e alts).1.tests =
      r.tests ++ [⟨name, "FAIL", category, e, 0,
        "No response: Connection refused - is the server running?"⟩] ∧
    run_all_tests .refused suites = (1, emptyResult) ∧
    (∀ s, (send_request net).status = some s →
      run_all_tests net suites =
        (if (run_suites emptyResult suites).failed = 0 then 0 else 1,
          run_suites emptyResult suites)) := by
  refine ⟨by decide, rfl, rfl, rfl, rfl, ?_⟩
  intro s h
  unfold run_all_tests
  simp [h]

/-- C7 witness: with a live server answering 200 and an empty suite list
the run completes with exit code 0 and an empty ledger. -/
theorem C7_witness :
    run_all_tests (.stream [str "HTTP/1.1 200 OK\r\n\r\nok", []]) [] =
      (0, emptyResult) := by
  have h := (C7_connection_refused emptyResult "n" "c" 200 [] []
    (.stream [str "HTTP/1.1 200 OK\r\n\r\nok", []])).2.2.2.2.2 200 (by decide)
  simpa using h

/-- Helper: inserting a fresh zero entry does not change a field sum whose
selector vanishes on the zero entry. -/
theorem catSum_ensureCat (f : CatStats → Nat) (hf : f ⟨0, 0, 0⟩ = 0)
    (m : List (String × CatStats)) (k : String) :
    catSum f (ensureCat m k) = catSum f m := by
  unfold ensureCat
  split
  · rfl
  · simp [catSum, hf]

/-- Helper: `ensureCat` leaves the key present. -/
theorem hasKey_ensureCat (m : List (String × CatStats)) (k : String) :
    hasKey (ensureCat m k) k = true := by
  unfold ensureCat
  split
  · assumption
  · simp [hasKey]

/-- Helper: bumping a present key changes a field sum by exactly the
per-entry delta of the bump. -/
theorem catSum_bumpCat (f : CatStats → Nat) (g : CatStats → CatStats) (d : Nat)
    (hg : ∀ v, f (g v) = f v + d) (m : List (String × CatStats)) (k : String)
    (hk : hasKey m k = true) :
    catSum f (bumpCat m k g) = catSum f m + d := by
  induction m with
  | nil => simp [hasKey] at hk
  | cons x rest ih =>
    obtain ⟨k', v⟩ := x
    by_cases h : k' = k
    · simp [bumpCat, h, catSum, hg]
      omega
    · have hk' : hasKey rest k = true := by
        simpa [hasKey, h] using hk
      simp only [bumpCat, if_neg h, catSum, List.map_cons, List.sum_cons]
      have := ih hk'
      simp only [catSum] at this
      omega

/-- Helper: one `add_pass`/`add_fail`/`add_skip` call preserves the tally
invariant. -/
theorem applyOp_inv (r : TestResult) (op : LedgerOp)
    (h1 : r.passed + r.failed + r.skipped = r.tests.length)
    (h2 : catSum (fun v => v.passed) r.categoryStats = r.passed)
    (h3 : catSum (fun v => v.failed) r.categoryStats = r.failed)
    (h4 : catSum (fun v => v.skipped) r.categoryStats = r.skipped) :
    ((applyOp r op).passed + (applyOp r op).failed + (applyOp r op).skipped =
      (applyOp r op).tests.length) ∧
    catSum (fun v => v.passed) (applyOp r op).categoryStats = (applyOp r op).passed ∧
    catSum (fun v => v.failed) (applyOp r op).categoryStats = (applyOp r op).failed ∧
    catSum (fun v => v.skipped) (applyOp r op).categoryStats = (applyOp r op).skipped := by
  cases op with
  | pass n c e g m =>
    refine ⟨?_, ?_, ?_, ?_⟩ <;>
      simp only [applyOp, add_pass, List.length_append, List.length_cons,
        List.length_nil]
    · omega
    · rw [catSum_bumpCat (fun v => v.passed)
        (fun v => { v with passed := v.passed + 1 }) 1 (fun v => rfl) _ _
        (hasKey_ensureCat _ _), catSum_ensureCat _ rfl, h2]
    · rw [catSum_bumpCat (fun v => v.failed)
        (fun v => { v with passed := v.passed + 1 }) 0 (fun v => rfl) _ _
        (hasKey_ensureCat _ _), catSum_ensureCat _ rfl, h3]
      omega
    · rw [catSum_bumpCat (fun v => v.skipped)
        (fun v => { v with passed := v.passed + 1 }) 0 (fun v => rfl) _ _
        (hasKey_ensureCat _ _), catSum_ensureCat _ rfl, h4]
      omega
  | fail n c e g m =>
    refine ⟨?_, ?_, ?_, ?_⟩ <;>
      simp only [applyOp, add_fail, List.length_append, List.length_cons,
        List.length_nil]
    · omega
    · rw [catSum_bumpCat (fun v => v.passed)
        (fun v => { v with failed := v.failed + 1 }) 0 (fun v => rfl) _ _
        (hasKey_ensureCat _ _), catSum_ensureCat _ rfl, h2]
      omega
    · rw [catSum_bumpCat (fun v => v.failed)
        (fun v => { v with failed := v.failed + 1 }) 1 (fun v => rfl) _ _
        (hasKey_ensureCat _ _), catSum_ensureCat _ rfl, h3]
    · rw [catSum_bumpCat (fun v => v.skipped)
        (fun v => { v with failed := v.failed + 1 }) 0 (fun v => rfl) _ _
        (hasKey_ensureCat _ _), catSum_ensureCat _ rfl, h4]
      omega
  | skip n c reason =>
    refine ⟨?_, ?_, ?_, ?_⟩ <;>
      simp only [applyOp, add_skip, List.length_append, List.length_cons,
        List.length_nil]
    · omega
    · rw [catSum_bumpCat (fun v => v.passed)
        (fun v => { v with skipped := v.skipped + 1 }) 0 (fun v => rfl) _ _
        (hasKey_ensureCat _ _), catSum_ensureCat _ rfl, h2]
      omega
    · rw [catSum_bumpCat (fun v => v.failed)
        (fun v => { v with skipped := v.skipped + 1 }) 0 (fun v => rfl) _ _
        (hasKey_ensureCat _ _), catSum_ensureCat _ rfl, h3]
      omega
    · rw [catSum_bumpCat (fun v => v.skipped)
        (fun v => { v with skipped := v.skipped + 1 }) 1 (fun v => rfl) _ _
        (hasKey_ensureCat _ _), catSum_ensureCat _ rfl, h4]

/-- Helper: the tally invariant is preserved by any sequence of mutator
calls. -/
theorem foldl_applyOp_inv (ops : List LedgerOp) (r : TestResult)
    (h1 : r.passed + r.failed + r.skipped = r.tests.length)
    (h2 : catSum (fun v => v.passed) r.categoryStats = r.passed)
    (h3 : catSum (fun v => v.failed) r.categoryStats = r.failed)
    (h4 : catSum (fun v => v.skipped) r.categoryStats = r.skipped) :
    ((ops.foldl applyOp r).passed + (ops.foldl applyOp r).failed +
        (ops.foldl applyOp r).skipped = (ops.foldl applyOp r).tests.length) ∧
    catSum (fun v => v.passed) (ops.foldl applyOp r).categoryStats =
      (ops.foldl applyOp r).passed ∧
    catSum (fun v => v.failed) (ops.foldl applyOp r).categoryStats =
      (ops.foldl applyOp r).failed ∧
    catSum (fun v => v.skipped) (ops.foldl applyOp r).categoryStats =
      (ops.foldl applyOp r).skipped := by
  induction ops generalizing r with
  | nil => exact ⟨h1, h2, h3, h4⟩
  | cons op rest ih =>
    obtain ⟨g1, g2, g3, g4⟩ := applyOp_inv r op h1 h2 h3 h4
    simpa only [List.foldl_cons] using ih (applyOp r op) g1 g2 g3 g4

/-- C9: ledger tally invariant.  Starting from a freshly constructed
`TestResult`, after any finite sequence of `add_pass`, `add_fail` and
`add_skip` calls the counters satisfy
`passed + failed + skipped = tests.length`, and each of the three global
counters equals the sum of the corresponding field over all
`category_stats` entries. -/
theorem C9_ledger_tally (ops : List LedgerOp) :
    ((ops.foldl applyOp emptyResult).passed +
        (ops.foldl applyOp emptyResult).failed +
        (ops.foldl applyOp emptyResult).skipped =
      (ops.foldl applyOp emptyResult).tests.length) ∧
    catSum (fun v => v.passed) (ops.foldl applyOp emptyResult).categoryStats =
      (ops.foldl applyOp emptyResult).passed ∧
    catSum (fun v => v.failed) (ops.foldl applyOp emptyResult).categoryStats =
      (ops.foldl applyOp emptyResult).failed ∧
    catSum (fun v => v.skipped) (ops.foldl applyOp emptyResult).categoryStats =
      (ops.foldl applyOp emptyResult).skipped :=
  foldl_applyOp_inv ops emptyResult rfl rfl rfl rfl

/-- C10: the summary's percentage computations divide by
`total = passed + failed + skipped` without a guard, so on an empty
result `print_summary` raises `ZeroDivisionError` instead of printing the
percentages, and the computation succeeds exactly when at least one
outcome was recorded. -/
theorem C10_summary_division (r : TestResult) :
    (r.passed = 0 ∧ r.failed = 0 ∧ r.skipped = 0 →
      print_summary_calc r = .error "ZeroDivisionError: division by zero") ∧
    (0 < r.passed + r.failed + r.skipped →
      ∃ v, print_summary_calc r = .ok v) := by
  constructor
  · rintro ⟨hp, hf, hs⟩
    simp [print_summary_calc, pyDiv, hp, hf, hs, Bind.bind, Except.bind]
  · intro h
    have hne : r.passed + r.failed + r.skipped ≠ 0 := Nat.pos_iff_ne_zero.mp h
    refine ⟨?_, ?_⟩
    · exact (((r.passed : ℚ) / (r.passed + r.failed + r.skipped : ℕ) * 100),
        ((r.failed : ℚ) / (r.passed + r.failed + r.skipped : ℕ) * 100),
        ((r.skipped : ℚ) / (r.passed + r.failed + r.skipped : ℕ) * 100))
    · simp [print_summary_calc, pyDiv, hne, Bind.bind, Except.bind, Pure.pure, Except.pure]

/-- C10 witness: the summary computation fails on the fresh ledger and
succeeds once one pass is recorded. -/
theorem C10_witness :
    print_summary_calc emptyResult =
      .error "ZeroDivisionError: division by zero" ∧
    ∃ v, print_summary_calc (add_pass emptyResult "t" "c" 200 200 "") = .ok v :=
  ⟨(C10_summary_division emptyResult).1 ⟨rfl, rfl, rfl⟩,
   (C10_summary_division (add_pass emptyResult "t" "c" 200 200 "")).2
     (by decide)⟩

/-- Helper: a decimal digit is not Python whitespace. -/
theorem not_space_of_digit (x : Char) (h : x.isDigit = true) :
    isSpaceChar x = false := by
  unfold isSpaceChar
  by_contra hx
  rw [Bool.not_eq_false] at hx
  simp only [Bool.or_eq_true, decide_eq_true_eq] at hx
  rcases hx with ((((h1 | h1) | h1) | h1) | h1) | h1 <;> subst h1 <;>
    exact absurd h (by decide)

/-- Helper: stripping does nothing to a whitespace-free string. -/
theorem pyStrip_no_ws (s : Bytes) (h : ∀ c ∈ s, isSpaceChar c = false) :
    pyStrip s = s := by
  unfold pyStrip
  have h1 : s.dropWhile isSpaceChar = s := by
    cases s with
    | nil => rfl
    | cons c cs =>
      rw [List.dropWhile_cons]
      simp [h c (by simp)]
  rw [h1]
  have h2 : s.reverse.dropWhile isSpaceChar = s.reverse := by
    cases hrev : s.reverse with
    | nil => rfl
    | cons c cs =>
      rw [List.dropWhile_cons]
      have hc : c ∈ s := by
        have hmem : c ∈ s.reverse := by rw [hrev]; simp
        simpa using hmem
      simp [h c hc]
  rw [h2, List.reverse_reverse]

/-- Helper: a string of digits is a valid `int()` literal tail. -/
theorem digitTail_of_digits (s : Bytes) (h : ∀ c ∈ s, c.isDigit = true) :
    digitTail s = true := by
  induction s with
  | nil => rfl
  | cons c cs ih =>
    have hc : c.isDigit = true := h c (by simp)
    have hcu : c ≠ '_' := by
      intro he
      subst he
      exact absurd hc (by decide)
    unfold digitTail
    simp only [if_neg hcu, hc, Bool.true_and]
    exact ih (fun x hx => h x (by simp [hx]))

/-- Helper: the `isdigit` guard makes the following `int()` call safe —
on an all-digit string `pyInt` succeeds with the digit value. -/
theorem pyInt_of_digits (p : Bytes) (h : pyIsDigit p = true) :
    pyInt p = .ok (digitVal p : Int) := by
  have hall : ∀ c ∈ p, c.isDigit = true := by
    have h2 := h
    unfold pyIsDigit at h2
    simp only [Bool.and_eq_true, List.all_eq_true, decide_eq_true_eq] at h2
    exact fun c hc => h2.2 c hc
  have hstrip : pyStrip p = p :=
    pyStrip_no_ws p (fun c hc => not_space_of_digit c (hall c hc))
  unfold pyInt
  rw [hstrip]
  cases p with
  | nil => exact absurd h (by decide)
  | cons c cs =>
    have hc : c.isDigit = true := hall c (by simp)
    have hplus : c ≠ '+' := by
      intro he
      subst he
      exact absurd hc (by decide)
    have hminus : c ≠ '-' := by
      intro he
      subst he
      exact absurd hc (by decide)
    have hbody : pyIntBody (c :: cs) = true := by
      unfold pyIntBody
      simp only [hc, Bool.true_and]
      exact digitTail_of_digits cs (fun x hx => hall x (by simp [hx]))
    simp [hplus, hminus, hbody]

/-- Helper: `parse_status` never returns an error: the `isdigit` guard
protects the only fallible step. -/
theorem parse_status_ok (hd : Bytes) : ∃ v, parse_status hd = .ok v := by
  unfold parse_status
  by_cases hhd : hd = []
  · rw [if_pos hhd]
    exact ⟨none, rfl⟩
  · rw [if_neg hhd]
    cases pyTokens (pyStrip (firstLine hd)) with
    | nil => exact ⟨none, rfl⟩
    | cons p0 tl =>
      cases tl with
      | nil => exact ⟨none, rfl⟩
      | cons p1 tl2 =>
        by_cases hdig : pyIsDigit p1 = true
        · refine ⟨some (digitVal p1 : Int).toNat, ?_⟩
          show (if pyIsDigit p1 = true then
              Except.map (fun n => some n.toNat) (pyInt p1)
            else Except.ok none) = Except.ok (some (digitVal p1 : Int).toNat)
          rw [if_pos hdig, pyInt_of_digits p1 hdig]
          rfl
        · refine ⟨none, ?_⟩
          show (if pyIsDigit p1 = true then
              Except.map (fun n => some n.toNat) (pyInt p1)
            else Except.ok none) = Except.ok none
          rw [if_neg hdig]

/-- Helper: when a pattern does not occur, `splitFirst` finds nothing. -/
theorem splitFirst_eq_none (pat s : Bytes) (h : hasSub pat s = false) :
    splitFirst pat s = none := by
  induction s with
  | nil =>
    unfold hasSub at h
    unfold splitFirst
    simp [h]
  | cons c cs ih =>
    unfold hasSub at h
    simp only [Bool.or_eq_false_iff] at h
    unfold splitFirst
    rw [if_neg (by simp [h.1])]
    rw [ih h.2]

/-- C8 counterexample: `get_status_code` splits the first line on single
spaces, not on whitespace, so on the headers `A\tB 6` — whose second
whitespace-separated token is the non-numeric `B` — it returns the
present status 6 instead of the absent marker 0. -/
theorem C8_counterexample :
    get_status_code (str "A\tB 6") = 6 ∧
    (pyTokens (str "A\tB 6")).get? 1 = some (str "B") ∧
    pyIsDigit (str "B") = false ∧
    (6 : Int) ≠ 0 := by
  decide

/-- C8 amended: response parsing is total.  `send_request`'s parsing
never raises: for every byte sequence it returns a result, when neither
`\r\n\r\n` nor `\n\n` occurs the whole input is the headers with an empty
body, and the parsed status is `None` whenever the second
whitespace-separated token of the stripped first line is missing or
non-numeric (and present when it is numeric).  `get_status_code` is also
total via its `try`/`except`, returning the absent marker 0 whenever its
single-space split of the first line yields fewer than two fields or a
second field rejected by `int()` — but, splitting on single spaces, it
can return a status even when the second whitespace-separated token is
not numeric. -/
theorem C8_parser_totality :
    (∀ s : Bytes, ∃ r, parseResponseE s = .ok r) ∧
    (∀ s : Bytes, hasSub (str "\r\n\r\n") s = false →
      hasSub (str "\n\n") s = false → headersBody s = (s, [])) ∧
    (∀ hd : Bytes, secondTokenNumeric (pyStrip (firstLine hd)) = false →
      parse_status hd = .ok none) ∧
    (∀ hd : Bytes, hd ≠ [] →
      secondTokenNumeric (pyStrip (firstLine hd)) = true →
      ∃ n, parse_status hd = .ok (some n)) ∧
    (∀ hd p0 p1 rest, (first_crlf_line hd).splitOn ' ' = p0 :: p1 :: rest →
      pyInt p1 = .error "ValueError" → get_status_code hd = 0) ∧
    (∀ hd : Bytes, ((first_crlf_line hd).splitOn ' ').length < 2 →
      get_status_code hd = 0) := by
  refine ⟨?_, ?_, ?_, ?_, ?_, ?_⟩
  · intro s
    obtain ⟨v, hv⟩ := parse_status_ok (headersBody s).1
    exact ⟨⟨v, some (headersBody s).1, (headersBody s).2⟩,
      by simp [parseResponseE, hv, Except.map]⟩
  · intro s h1 h2
    unfold headersBody
    rw [splitFirst_eq_none _ _ h1, splitFirst_eq_none _ _ h2]
  · intro hd hsec
    unfold parse_status
    by_cases hhd : hd = []
    · rw [if_pos hhd]
    · rw [if_neg hhd]
      unfold secondTokenNumeric at hsec
      cases heq : pyTokens (pyStrip (firstLine hd)) with
      | nil => rfl
      | cons p0 tl =>
        cases tl with
        | nil => rfl
        | cons p1 tl2 =>
          rw [heq] at hsec
          have hsec2 : pyIsDigit p1 = false := hsec
          show (if pyIsDigit p1 = true then
              Except.map (fun n => some n.toNat) (pyInt p1)
            else Except.ok none) = Except.ok none
          rw [if_neg (by simp [hsec2])]
  · intro hd hne hsec
    unfold parse_status
    rw [if_neg hne]
    unfold secondTokenNumeric at hsec
    cases heq : pyTokens (pyStrip (firstLine hd)) with
    | nil => rw [heq] at hsec; exact Bool.noConfusion (hsec : false = true)
    | cons p0 tl =>
      cases tl with
      | nil => rw [heq] at hsec; exact Bool.noConfusion (hsec : false = true)
      | cons p1 tl2 =>
        rw [heq] at hsec
        have hsec2 : pyIsDigit p1 = true := hsec
        refine ⟨(digitVal p1 : Int).toNat, ?_⟩
        show (if pyIsDigit p1 = true then
            Except.map (fun n => some n.toNat) (pyInt p1)
          else Except.ok none) = Except.ok (some (digitVal p1 : Int).toNat)
        rw [if_pos hsec2, pyInt_of_digits p1 hsec2]
        rfl
  · intro hd p0 p1 rest heq herr
    unfold get_status_code
    split
    · rfl
    · rw [heq]
      show (match pyInt p1 with
        | Except.ok n => n
        | Except.error _ => (0 : Int)) = (0 : Int)
      rw [herr]
  · intro hd hlen
    unfold get_status_code
    split
    · rfl
    · cases heq : (first_crlf_line hd).splitOn ' ' with
      | nil => rfl
      | cons p0 tl =>
        cases tl with
        | nil => rfl
        | cons p1 tl2 =>
          rw [heq] at hlen
          simp at hlen
          omega

/-- C8 witness: the totality statements applied to concrete inputs — a
terminator-free input parses whole as headers, a non-numeric second token
gives an absent status, and a one-field first line gives the 0 marker. -/
theorem C8_witness :
    (∃ r, parseResponseE (str "garbage with no terminator") = .ok r) ∧
    headersBody (str "garbage with no terminator") =
      (str "garbage with no terminator", []) ∧
    parse_status (str "HTTP/1.1 OK") = .ok none ∧
    get_status_code (str "A") = 0 := by
  obtain ⟨h1, h2, h3, h4, h5, h6⟩ := C8_parser_totality
  exact ⟨h1 _, h2 _ (by decide) (by decide), h3 _ (by decide), h6 _ (by decide)⟩

end Webserv
